import Mathlib

/-!
# Circuit-Rescue: formal model of the energy / device / scene-flow logic

This file gives a shallow embedding, in Lean 4, of the discrete game logic of
the Circuit-Rescue repository (a Phaser 3 puzzle-platformer):

* the `Button` and `Speaker` devices and their `handlePlayerClick` handlers
  (`src/game/objects/button.ts`, `src/game/objects/speaker.ts`);
* the scene-level energy pool (`GameScene.updateEnergy`,
  `GameScene.#calculateEnergy` in `src/game/scenes/game-scene.ts`);
* level completion and the scene flow (`GameScene.npcHasLeftScene`,
  `GameScene.init`, the title scene's New Game / Continue handlers, and
  `DataUtils.setSavedLevel` / `getSavedLevel`);
* the Tiled-object creation loops with schema validation
  (`GameScene.#createDoors`, `#createButtons`, `DataUtils.getAnimations`);
* the bridge movement handler (`Bridge.#handleBridgeMovement`).

TypeScript numbers holding energy levels and level numbers are modelled as
`Int` (all the operations performed on them are integer operations), sprite
frames as `Nat`, and the floating point scale / alpha values of the speaker
range sprite as `ℚ` (they are only ever assigned constants, never computed).
Tweens and animations are real-time engine behaviour and are modelled only by
their immediate state writes.
-/

namespace CircuitRescue

/-- Audio asset key used by `Button.handlePlayerClick` (from `asset-keys.ts`). -/
def SWITCH_BEEP : String := "SWITCH_BEEP"

/-- Audio asset key used by `Speaker.handlePlayerClick` (from `asset-keys.ts`). -/
def SPEAKER_BEEP : String := "SPEAKER_BEEP"

/-- The single localStorage key used by `DataUtils` (from `data-utils.ts`:
`export const LOCAL_STORAGE_LEVEL_KEY = 'currentLevel';`). -/
def LOCAL_STORAGE_LEVEL_KEY : String := "currentLevel"

/-- `GameScene.updateEnergy` (game-scene.ts): `this.#currentEnergy += energyAmount`.
The UI refresh `#updateEnergyUI` only changes sprite alphas and is not part of
the energy state. -/
def updateEnergy (currentEnergy energyAmount : Int) : Int :=
  currentEnergy + energyAmount

/-- The state of a `Button` instance (button.ts): its private fields
`#energyLevel`, `#maxEnergy`, `#inTutorial` and the frame of `#sprite`. -/
structure Button where
  energyLevel : Int
  maxEnergy : Int
  inTutorial : Bool
  frame : Nat
deriving Repr, DecidableEq

/-- The frame chosen by `Button.#setTexture` (button.ts lines 110-127):
frame 0/1/2/3 by energy level, with the special case that a button whose
`maxEnergy` is 1 shows frame 4 at energy level 1. -/
def buttonFrame (energyLevel maxEnergy : Int) : Nat :=
  if energyLevel = 0 then 0
  else if energyLevel = 1 then (if maxEnergy = 1 then 4 else 1)
  else if energyLevel = 2 then 2
  else 3

/-- `Button.#setTexture`: writes only the sprite frame. -/
def Button.setTexture (b : Button) : Button :=
  { b with frame := buttonFrame b.energyLevel b.maxEnergy }

/-- The effect of one `Button.handlePlayerClick` call: the updated button, the
updated scene `#currentEnergy`, the sound effect passed to `playSoundFx` (if
any), and the argument passed to `#connectedObject.powerLevelChanged` (if the
call got that far). -/
structure ButtonClick where
  button : Button
  currentEnergy : Int
  soundFx : Option String
  powerSignal : Option Int
deriving Repr, DecidableEq

/-- `Button.handlePlayerClick` (button.ts lines 84-104), acting on the button
state and the scene's `#currentEnergy`.  Source:

```
if (this.#inTutorial) { return; }
if (this.#scene.currentEnergy === 0 && this.#energyLevel === 0) { return; }
if (this.#energyLevel < this.#maxEnergy && this.#scene.currentEnergy > 0) {
  this.#energyLevel += 1; this.#scene.updateEnergy(-1);
} else {
  this.#scene.updateEnergy(this.#energyLevel); this.#energyLevel = 0;
}
this.#setTexture();
this.#connectedObject.powerLevelChanged(this.#energyLevel);
playSoundFx(this.#scene, AUDIO_ASSET_KEYS.SWITCH_BEEP);
```
-/
def Button.handlePlayerClick (b : Button) (sceneCurrentEnergy : Int) : ButtonClick :=
  if b.inTutorial = true then
    { button := b, currentEnergy := sceneCurrentEnergy, soundFx := none, powerSignal := none }
  else if sceneCurrentEnergy = 0 ∧ b.energyLevel = 0 then
    { button := b, currentEnergy := sceneCurrentEnergy, soundFx := none, powerSignal := none }
  else if b.energyLevel < b.maxEnergy ∧ 0 < sceneCurrentEnergy then
    let b1 : Button := { b with energyLevel := b.energyLevel + 1 }
    let b2 := b1.setTexture
    { button := b2,
      currentEnergy := updateEnergy sceneCurrentEnergy (-1),
      soundFx := some SWITCH_BEEP,
      powerSignal := some b2.energyLevel }
  else
    let newEnergy := updateEnergy sceneCurrentEnergy b.energyLevel
    let b1 : Button := { b with energyLevel := 0 }
    let b2 := b1.setTexture
    { button := b2,
      currentEnergy := newEnergy,
      soundFx := some SWITCH_BEEP,
      powerSignal := some b2.energyLevel }

/-- The state of a `Speaker` instance (speaker.ts): `#energyLevel`,
`#maxEnergy` (set to 3 by the constructor), `#inTutorial`, the frame of
`#sprite`, and the scale / alpha of the `#speakerRange` image. -/
structure Speaker where
  energyLevel : Int
  maxEnergy : Int
  inTutorial : Bool
  frame : Nat
  rangeScale : ℚ
  rangeAlpha : ℚ
deriving Repr, DecidableEq

/-- The frame chosen by `Speaker.#setTexture` (speaker.ts lines 134-148). -/
def speakerFrame (energyLevel : Int) : Nat :=
  if energyLevel = 0 then 0
  else if energyLevel = 1 then 1
  else if energyLevel = 2 then 2
  else 3

/-- `Speaker.#setTexture`: writes only the sprite frame. -/
def Speaker.setTexture (sp : Speaker) : Speaker :=
  { sp with frame := speakerFrame sp.energyLevel }

/-- The `Speaker` constructor fixes `this.#maxEnergy = 3;` (speaker.ts line 35). -/
def Speaker.make (startingEnergy : Int) : Speaker :=
  { energyLevel := startingEnergy, maxEnergy := 3, inTutorial := false,
    frame := speakerFrame startingEnergy, rangeScale := 1/100, rangeAlpha := 0 }

/-- `Speaker.#displaySpeakerRange` (speaker.ts lines 155-181): sets the range
image scale from the energy level; at energy 0 it returns before touching the
alpha, otherwise when `show` is true it sets alpha to 0.5 (the follow-up tween
that fades alpha back to 0 is real-time behaviour and not modelled). -/
def Speaker.displaySpeakerRange (sp : Speaker) (showRange : Bool) : Speaker :=
  if sp.energyLevel = 0 then { sp with rangeScale := 1/100 }
  else
    let sp1 :=
      if sp.energyLevel = 1 then { sp with rangeScale := 2/5 }
      else if sp.energyLevel = 2 then { sp with rangeScale := 3/4 }
      else { sp with rangeScale := 6/5 }
    if showRange = false then sp1
    else { sp1 with rangeAlpha := 1/2 }

/-- The effect of one `Speaker.handlePlayerClick` call. -/
structure SpeakerClick where
  speaker : Speaker
  currentEnergy : Int
  soundFx : Option String
deriving Repr, DecidableEq

/-- `Speaker.handlePlayerClick` (speaker.ts lines 108-128); identical energy
logic to the button, followed by `#setTexture()`, `#displaySpeakerRange(true)`
and `playSoundFx(..., SPEAKER_BEEP)`. -/
def Speaker.handlePlayerClick (sp : Speaker) (sceneCurrentEnergy : Int) : SpeakerClick :=
  if sp.inTutorial = true then
    { speaker := sp, currentEnergy := sceneCurrentEnergy, soundFx := none }
  else if sceneCurrentEnergy = 0 ∧ sp.energyLevel = 0 then
    { speaker := sp, currentEnergy := sceneCurrentEnergy, soundFx := none }
  else if sp.energyLevel < sp.maxEnergy ∧ 0 < sceneCurrentEnergy then
    let sp1 : Speaker := { sp with energyLevel := sp.energyLevel + 1 }
    let sp2 := (sp1.setTexture).displaySpeakerRange true
    { speaker := sp2,
      currentEnergy := updateEnergy sceneCurrentEnergy (-1),
      soundFx := some SPEAKER_BEEP }
  else
    let newEnergy := updateEnergy sceneCurrentEnergy sp.energyLevel
    let sp1 : Speaker := { sp with energyLevel := 0 }
    let sp2 := (sp1.setTexture).displaySpeakerRange true
    { speaker := sp2,
      currentEnergy := newEnergy,
      soundFx := some SPEAKER_BEEP }

/-! ## Helper lemmas about a single click -/

theorem Button.setTexture_energyLevel (b : Button) :
    b.setTexture.energyLevel = b.energyLevel := rfl

theorem Button.setTexture_maxEnergy (b : Button) :
    b.setTexture.maxEnergy = b.maxEnergy := rfl

theorem Speaker.displaySpeakerRange_energyLevel (sp : Speaker) (showRange : Bool) :
    (sp.displaySpeakerRange showRange).energyLevel = sp.energyLevel := by
  unfold Speaker.displaySpeakerRange
  split_ifs <;> rfl

theorem Speaker.displaySpeakerRange_maxEnergy (sp : Speaker) (showRange : Bool) :
    (sp.displaySpeakerRange showRange).maxEnergy = sp.maxEnergy := by
  unfold Speaker.displaySpeakerRange
  split_ifs <;> rfl

theorem Speaker.displaySpeakerRange_inTutorial (sp : Speaker) (showRange : Bool) :
    (sp.displaySpeakerRange showRange).inTutorial = sp.inTutorial := by
  unfold Speaker.displaySpeakerRange
  split_ifs <;> rfl

theorem Speaker.displaySpeakerRange_frame (sp : Speaker) (showRange : Bool) :
    (sp.displaySpeakerRange showRange).frame = sp.frame := by
  unfold Speaker.displaySpeakerRange
  split_ifs <;> rfl

/-- One button click conserves `currentEnergy + energyLevel` and leaves
`maxEnergy` and `inTutorial` untouched. -/
theorem Button.click_conserves (b : Button) (e : Int) :
    (b.handlePlayerClick e).currentEnergy + (b.handlePlayerClick e).button.energyLevel
        = e + b.energyLevel ∧
    (b.handlePlayerClick e).button.maxEnergy = b.maxEnergy ∧
    (b.handlePlayerClick e).button.inTutorial = b.inTutorial := by
  unfold Button.handlePlayerClick
  split_ifs with h1 h2 h3 <;>
    simp [Button.setTexture, updateEnergy] <;> omega

/-- One speaker click conserves `currentEnergy + energyLevel` and leaves
`maxEnergy` and `inTutorial` untouched. -/
theorem Speaker.speaker_click_conserves (sp : Speaker) (e : Int) :
    (sp.handlePlayerClick e).currentEnergy + (sp.handlePlayerClick e).speaker.energyLevel
        = e + sp.energyLevel ∧
    (sp.handlePlayerClick e).speaker.maxEnergy = sp.maxEnergy ∧
    (sp.handlePlayerClick e).speaker.inTutorial = sp.inTutorial := by
  unfold Speaker.handlePlayerClick
  split_ifs with h1 h2 h3 <;>
    simp [Speaker.setTexture, Speaker.displaySpeakerRange_energyLevel,
      Speaker.displaySpeakerRange_maxEnergy, Speaker.displaySpeakerRange_inTutorial,
      updateEnergy] <;> omega

/-! ## C1: a button click adds at most one and clamps at `maxEnergy` -/

/-- C1: For every Button that is not in tutorial mode, a single call to
`handlePlayerClick` increments the button's energy level by at most 1 and the
resulting energy level never exceeds the button's configured `maxEnergy`;
when the increment branch is not taken, the click instead leaves the button's
energy level at 0 (the non-incrementing paths either reset it to 0 or return
early in a state where it already is 0). -/
theorem button_click_increments_at_most_one_and_clamps
    (b : Button) (e : Int)
    (hTut : b.inTutorial = false) (hMax : 0 ≤ b.maxEnergy) (hLvl : 0 ≤ b.energyLevel) :
    (b.handlePlayerClick e).button.energyLevel ≤ b.energyLevel + 1 ∧
    (b.handlePlayerClick e).button.energyLevel ≤ b.maxEnergy ∧
    (¬ (b.energyLevel < b.maxEnergy ∧ 0 < e) →
      (b.handlePlayerClick e).button.energyLevel = 0) := by
  unfold Button.handlePlayerClick
  split_ifs with h1 h2 h3 <;>
    simp_all [Button.setTexture] <;> omega

/-- Witness for C1: a button with energy 1 of max 3 and one unit of pool
energy is clicked up to 2. -/
theorem button_click_increments_at_most_one_and_clamps_witness :
    ({ energyLevel := 1, maxEnergy := 3, inTutorial := false,
       frame := 1 : Button }.handlePlayerClick 1).button.energyLevel ≤ 1 + 1 ∧
    ({ energyLevel := 1, maxEnergy := 3, inTutorial := false,
       frame := 1 : Button }.handlePlayerClick 1).button.energyLevel ≤ 3 ∧
    (¬ ((1 : Int) < 3 ∧ (0 : Int) < 1) →
      ({ energyLevel := 1, maxEnergy := 3, inTutorial := false,
         frame := 1 : Button }.handlePlayerClick 1).button.energyLevel = 0) :=
  button_click_increments_at_most_one_and_clamps
    { energyLevel := 1, maxEnergy := 3, inTutorial := false, frame := 1 } 1
    rfl (by decide) (by decide)

/-! ## C2: a click never creates or destroys energy -/

/-- C2: For every Button and every Speaker, in every mode (including tutorial
mode and the early-return cases), a call to `handlePlayerClick` leaves the sum
of the scene's `currentEnergy` and that device's `energyLevel` unchanged:
energy is only transferred, via `GameScene.updateEnergy`, between the scene
pool and the device. -/
theorem handlePlayerClick_conserves_total_energy (b : Button) (sp : Speaker) (e f : Int) :
    (b.handlePlayerClick e).currentEnergy + (b.handlePlayerClick e).button.energyLevel
        = e + b.energyLevel ∧
    (sp.handlePlayerClick f).currentEnergy + (sp.handlePlayerClick f).speaker.energyLevel
        = f + sp.energyLevel :=
  ⟨(Button.click_conserves b e).1, (Speaker.speaker_click_conserves sp f).1⟩

/-! ## C9: tutorial mode and the all-zero case are complete no-ops -/

/-- C9: Calling `handlePlayerClick` on a Button or Speaker while `inTutorial`
is true, or while both the scene's `currentEnergy` and the device's
`energyLevel` are 0, changes nothing: the device state (energy level, sprite
frame, speaker range scale and alpha) and the scene's `currentEnergy` are
returned unchanged, no sound effect is played, and the button's connected
object is not notified. -/
theorem handlePlayerClick_noop_cases (b : Button) (sp : Speaker) (e : Int)
    (hb : b.inTutorial = true ∨ (e = 0 ∧ b.energyLevel = 0))
    (hs : sp.inTutorial = true ∨ (e = 0 ∧ sp.energyLevel = 0)) :
    b.handlePlayerClick e
      = { button := b, currentEnergy := e, soundFx := none, powerSignal := none } ∧
    sp.handlePlayerClick e
      = { speaker := sp, currentEnergy := e, soundFx := none } := by
  unfold Button.handlePlayerClick Speaker.handlePlayerClick
  split_ifs <;> simp_all

/-- Witness for C9: a tutorial-mode button and an all-zero speaker. -/
theorem handlePlayerClick_noop_cases_witness :
    ({ energyLevel := 2, maxEnergy := 3, inTutorial := true,
       frame := 2 : Button }.handlePlayerClick 0)
      = { button := { energyLevel := 2, maxEnergy := 3, inTutorial := true, frame := 2 },
          currentEnergy := 0, soundFx := none, powerSignal := none } ∧
    ({ energyLevel := 0, maxEnergy := 3, inTutorial := false, frame := 0,
       rangeScale := 1/100, rangeAlpha := 0 : Speaker }.handlePlayerClick 0)
      = { speaker := { energyLevel := 0, maxEnergy := 3, inTutorial := false, frame := 0,
                       rangeScale := 1/100, rangeAlpha := 0 },
          currentEnergy := 0, soundFx := none } :=
  handlePlayerClick_noop_cases
    { energyLevel := 2, maxEnergy := 3, inTutorial := true, frame := 2 }
    { energyLevel := 0, maxEnergy := 3, inTutorial := false, frame := 0,
      rangeScale := 1/100, rangeAlpha := 0 }
    0 (Or.inl rfl) (Or.inr ⟨rfl, rfl⟩)

/-! ## C3: device energy levels stay within bounds over click sequences

A "sequence of handlePlayerClick calls" is modelled as a fold over the list of
scene `currentEnergy` values observed at each click (between two clicks of
this device, other devices may have changed the scene pool arbitrarily). -/

/-- Button energy bounds are preserved by a single click. -/
theorem Button.click_energy_bounds (b : Button) (e : Int)
    (h0 : 0 ≤ b.energyLevel) (h1 : b.energyLevel ≤ b.maxEnergy) :
    0 ≤ (b.handlePlayerClick e).button.energyLevel ∧
    (b.handlePlayerClick e).button.energyLevel ≤ b.maxEnergy := by
  unfold Button.handlePlayerClick
  split_ifs <;> simp [Button.setTexture] <;> omega

/-- Speaker energy bounds are preserved by a single click. -/
theorem Speaker.speaker_click_energy_bounds (sp : Speaker) (e : Int)
    (h0 : 0 ≤ sp.energyLevel) (h1 : sp.energyLevel ≤ sp.maxEnergy) :
    0 ≤ (sp.handlePlayerClick e).speaker.energyLevel ∧
    (sp.handlePlayerClick e).speaker.energyLevel ≤ sp.maxEnergy := by
  unfold Speaker.handlePlayerClick
  split_ifs <;>
    simp [Speaker.setTexture, Speaker.displaySpeakerRange_energyLevel] <;> omega

/-- A sequence of clicks on one button, given the scene pool value at the
time of each click. -/
def Button.clickSeq (b : Button) (pools : List Int) : Button :=
  pools.foldl (fun acc e => (acc.handlePlayerClick e).button) b

/-- A sequence of clicks on one speaker, given the scene pool value at the
time of each click. -/
def Speaker.clickSeq (sp : Speaker) (pools : List Int) : Speaker :=
  pools.foldl (fun acc e => (acc.handlePlayerClick e).speaker) sp

theorem Button.clickSeq_bounds :
    ∀ (pools : List Int) (b : Button), 0 ≤ b.energyLevel → b.energyLevel ≤ b.maxEnergy →
      0 ≤ (b.clickSeq pools).energyLevel ∧
      (b.clickSeq pools).energyLevel ≤ b.maxEnergy ∧
      (b.clickSeq pools).maxEnergy = b.maxEnergy := by
  intro pools
  induction pools with
  | nil => exact fun b h0 h1 => ⟨h0, h1, rfl⟩
  | cons e rest ih =>
    intro b h0 h1
    have hstep := Button.click_energy_bounds b e h0 h1
    have hmax := (Button.click_conserves b e).2.1
    have hrest := ih ((b.handlePlayerClick e).button) hstep.1 (by rw [hmax]; exact hstep.2)
    have hseq : b.clickSeq (e :: rest) = ((b.handlePlayerClick e).button).clickSeq rest := rfl
    rw [hseq]
    exact ⟨hrest.1, by rw [← hmax]; exact hrest.2.1, hrest.2.2.trans hmax⟩

theorem Speaker.speaker_clickSeq_bounds :
    ∀ (pools : List Int) (sp : Speaker), 0 ≤ sp.energyLevel → sp.energyLevel ≤ sp.maxEnergy →
      0 ≤ (sp.clickSeq pools).energyLevel ∧
      (sp.clickSeq pools).energyLevel ≤ sp.maxEnergy ∧
      (sp.clickSeq pools).maxEnergy = sp.maxEnergy := by
  intro pools
  induction pools with
  | nil => exact fun sp h0 h1 => ⟨h0, h1, rfl⟩
  | cons e rest ih =>
    intro sp h0 h1
    have hstep := Speaker.speaker_click_energy_bounds sp e h0 h1
    have hmax := (Speaker.speaker_click_conserves sp e).2.1
    have hrest := ih ((sp.handlePlayerClick e).speaker) hstep.1 (by rw [hmax]; exact hstep.2)
    have hseq : sp.clickSeq (e :: rest) = ((sp.handlePlayerClick e).speaker).clickSeq rest := rfl
    rw [hseq]
    exact ⟨hrest.1, by rw [← hmax]; exact hrest.2.1, hrest.2.2.trans hmax⟩

/-- C3: For every Speaker (whose constructor fixes `maxEnergy` at 3) and every
Button whose `maxEnergy` is at most 3, if the starting energy level is an
integer in `[0, maxEnergy]`, then after any sequence of `handlePlayerClick`
calls (with arbitrary scene pool values between clicks) the device's energy
level remains in `[0, 3]`, and more precisely in `[0, maxEnergy]`.  Energy
levels are modelled as `Int` (every operation the code performs on them is an
integer operation), so "remains an integer" holds by construction. -/
theorem energy_level_bounded_over_click_sequences
    (b : Button) (sp : Speaker) (pools pools2 : List Int)
    (hbm : b.maxEnergy ≤ 3) (hb0 : 0 ≤ b.energyLevel) (hb1 : b.energyLevel ≤ b.maxEnergy)
    (hsm : sp.maxEnergy = 3) (hs0 : 0 ≤ sp.energyLevel) (hs1 : sp.energyLevel ≤ sp.maxEnergy) :
    (0 ≤ (b.clickSeq pools).energyLevel ∧
      (b.clickSeq pools).energyLevel ≤ b.maxEnergy ∧
      (b.clickSeq pools).energyLevel ≤ 3) ∧
    (0 ≤ (sp.clickSeq pools2).energyLevel ∧
      (sp.clickSeq pools2).energyLevel ≤ sp.maxEnergy ∧
      (sp.clickSeq pools2).energyLevel ≤ 3) := by
  obtain ⟨hb0s, hb1s, _⟩ := Button.clickSeq_bounds pools b hb0 hb1
  obtain ⟨hs0s, hs1s, _⟩ := Speaker.speaker_clickSeq_bounds pools2 sp hs0 hs1
  exact ⟨⟨hb0s, hb1s, hb1s.trans hbm⟩, ⟨hs0s, hs1s, by omega⟩⟩

/-- Witness for C3: a max-1 button and a fresh speaker clicked three times
each, with pool values 1, 0, 2 observed at the clicks. -/
theorem energy_level_bounded_over_click_sequences_witness :
    (0 ≤ ({ energyLevel := 0, maxEnergy := 1, inTutorial := false,
            frame := 0 : Button }.clickSeq [1, 0, 2]).energyLevel ∧
      ({ energyLevel := 0, maxEnergy := 1, inTutorial := false,
         frame := 0 : Button }.clickSeq [1, 0, 2]).energyLevel ≤ 1 ∧
      ({ energyLevel := 0, maxEnergy := 1, inTutorial := false,
         frame := 0 : Button }.clickSeq [1, 0, 2]).energyLevel ≤ 3) ∧
    (0 ≤ ((Speaker.make 0).clickSeq [1, 0, 2]).energyLevel ∧
      ((Speaker.make 0).clickSeq [1, 0, 2]).energyLevel ≤ (Speaker.make 0).maxEnergy ∧
      ((Speaker.make 0).clickSeq [1, 0, 2]).energyLevel ≤ 3) :=
  energy_level_bounded_over_click_sequences
    { energyLevel := 0, maxEnergy := 1, inTutorial := false, frame := 0 }
    (Speaker.make 0) [1, 0, 2] [1, 0, 2]
    (by decide) (by decide) (by decide) rfl (by decide) (by decide)

/-! ## C4: the scene's energy pool stays within `[0, maxEnergy]`

`GameScene` holds the scene pool `#currentEnergy` and the clickable devices.
A user interaction clicks one of the buttons or speakers by index; the
device's `handlePlayerClick` reads the scene pool and writes it back through
`updateEnergy`. -/

/-- The energy-relevant state of `GameScene` (game-scene.ts): `#currentEnergy`
together with the `#buttons` and `#speakers` arrays. -/
structure GameScene where
  currentEnergy : Int
  buttons : List Button
  speakers : List Speaker
deriving Repr, DecidableEq

/-- A pointer-down event on one of the scene's clickable energy devices. -/
inductive ClickAction where
  | clickButton (i : Nat)
  | clickSpeaker (i : Nat)
deriving Repr, DecidableEq

/-- Dispatch one click to the targeted device (the sprite's POINTER_DOWN
handler calls the device's `handlePlayerClick`, which updates the device and
the scene pool). A click on a non-existent index does nothing. -/
def applyClick (st : GameScene) (a : ClickAction) : GameScene :=
  match a with
  | ClickAction.clickButton i =>
    match st.buttons.get? i with
    | none => st
    | some b =>
      let r := b.handlePlayerClick st.currentEnergy
      { st with buttons := st.buttons.set i r.button, currentEnergy := r.currentEnergy }
  | ClickAction.clickSpeaker i =>
    match st.speakers.get? i with
    | none => st
    | some sp =>
      let r := sp.handlePlayerClick st.currentEnergy
      { st with speakers := st.speakers.set i r.speaker, currentEnergy := r.currentEnergy }

/-- Run a sequence of clicks. -/
def runClicks (st : GameScene) (actions : List ClickAction) : GameScene :=
  actions.foldl applyClick st

/-- `GameScene.#calculateEnergy` (game-scene.ts lines 753-777): the scene's
starting `#currentEnergy` is the level's starting energy, and `#maxEnergy` is
the starting energy plus the energy initially held by the buttons and
speakers (`energyUsedByDevices`, accumulated with `forEach`). Returns
`(#currentEnergy, #maxEnergy)`. -/
def calculateEnergy (startingEnergy : Int) (buttons : List Button)
    (speakers : List Speaker) : Int × Int :=
  let currentEnergy := startingEnergy
  let maxEnergy := currentEnergy
  let energyUsedByDevices :=
    speakers.foldl (fun acc sp => acc + sp.energyLevel)
      (buttons.foldl (fun acc b => acc + b.energyLevel) 0)
  (currentEnergy, maxEnergy + energyUsedByDevices)

/-- Total energy currently held by the scene's devices. -/
def devicesEnergy (st : GameScene) : Int :=
  (st.buttons.map Button.energyLevel).sum + (st.speakers.map Speaker.energyLevel).sum

/-- The inductive invariant behind C4: the pool is non-negative, every device
level is non-negative, and pool + device energy equals the constant total. -/
def EnergyInv (maxE : Int) (st : GameScene) : Prop :=
  0 ≤ st.currentEnergy ∧
  (∀ b ∈ st.buttons, 0 ≤ b.energyLevel) ∧
  (∀ sp ∈ st.speakers, 0 ≤ sp.energyLevel) ∧
  st.currentEnergy + devicesEnergy st = maxE

theorem foldl_add_map_sum {α : Type} (f : α → Int) :
    ∀ (l : List α) (a : Int), l.foldl (fun acc x => acc + f x) a = a + (l.map f).sum := by
  intro l
  induction l with
  | nil => simp
  | cons x xs ih =>
    intro a
    simp only [List.foldl_cons, List.map_cons, List.sum_cons, ih]
    omega

theorem sum_map_set {α : Type} (f : α → Int) :
    ∀ (l : List α) (i : Nat) (x y : α), l.get? i = some y →
      ((l.set i x).map f).sum = (l.map f).sum - f y + f x := by
  intro l
  induction l with
  | nil => intro i x y h; simp at h
  | cons a as ih =>
    intro i x y h
    cases i with
    | zero =>
      simp only [List.get?] at h
      injection h with h
      subst h
      simp only [List.set, List.map_cons, List.sum_cons]
      omega
    | succ n =>
      simp only [List.get?] at h
      simp only [List.set, List.map_cons, List.sum_cons, ih n x y h]
      omega

theorem forall_mem_set {α : Type} (P : α → Prop) :
    ∀ (l : List α) (i : Nat) (x : α), (∀ z ∈ l, P z) → P x → ∀ z ∈ l.set i x, P z := by
  intro l
  induction l with
  | nil => intro i x _ _ z hz; simp [List.set] at hz
  | cons a as ih =>
    intro i x hl hx z hz
    cases i with
    | zero =>
      simp only [List.set, List.mem_cons] at hz
      rcases hz with h | h
      · exact h ▸ hx
      · exact hl z (List.mem_cons_of_mem a h)
    | succ n =>
      simp only [List.set, List.mem_cons] at hz
      rcases hz with h | h
      · exact h ▸ hl a (List.mem_cons_self a as)
      · exact ih n x (fun w hw => hl w (List.mem_cons_of_mem a hw)) hx z h

/-- The scene pool never goes negative in a single click (the decrement branch
is guarded by `currentEnergy > 0`, the other branch adds the device's
non-negative level). -/
theorem Button.click_pool_nonneg (b : Button) (e : Int)
    (he : 0 ≤ e) (hb : 0 ≤ b.energyLevel) :
    0 ≤ (b.handlePlayerClick e).currentEnergy := by
  unfold Button.handlePlayerClick
  split_ifs <;> simp [updateEnergy] <;> omega

theorem Speaker.speaker_click_pool_nonneg (sp : Speaker) (e : Int)
    (he : 0 ≤ e) (hs : 0 ≤ sp.energyLevel) :
    0 ≤ (sp.handlePlayerClick e).currentEnergy := by
  unfold Speaker.handlePlayerClick
  split_ifs <;> simp [updateEnergy] <;> omega

/-- A click keeps the device's level non-negative (without needing the upper
bound). -/
theorem Button.click_energy_nonneg (b : Button) (e : Int) (h0 : 0 ≤ b.energyLevel) :
    0 ≤ (b.handlePlayerClick e).button.energyLevel := by
  unfold Button.handlePlayerClick
  split_ifs <;> simp [Button.setTexture] <;> omega

theorem Speaker.speaker_click_energy_nonneg (sp : Speaker) (e : Int) (h0 : 0 ≤ sp.energyLevel) :
    0 ≤ (sp.handlePlayerClick e).speaker.energyLevel := by
  unfold Speaker.handlePlayerClick
  split_ifs <;>
    simp [Speaker.setTexture, Speaker.displaySpeakerRange_energyLevel] <;> omega

theorem applyClick_button_none (st : GameScene) (i : Nat)
    (h : st.buttons.get? i = none) : applyClick st (ClickAction.clickButton i) = st := by
  simp only [List.get?_eq_getElem?] at h
  simp [applyClick, h]

theorem applyClick_button_some (st : GameScene) (i : Nat) (b : Button)
    (h : st.buttons.get? i = some b) :
    applyClick st (ClickAction.clickButton i)
      = { st with buttons := st.buttons.set i (b.handlePlayerClick st.currentEnergy).button,
                  currentEnergy := (b.handlePlayerClick st.currentEnergy).currentEnergy } := by
  simp only [List.get?_eq_getElem?] at h
  simp [applyClick, h]

theorem applyClick_speaker_none (st : GameScene) (i : Nat)
    (h : st.speakers.get? i = none) : applyClick st (ClickAction.clickSpeaker i) = st := by
  simp only [List.get?_eq_getElem?] at h
  simp [applyClick, h]

theorem applyClick_speaker_some (st : GameScene) (i : Nat) (sp : Speaker)
    (h : st.speakers.get? i = some sp) :
    applyClick st (ClickAction.clickSpeaker i)
      = { st with speakers := st.speakers.set i (sp.handlePlayerClick st.currentEnergy).speaker,
                  currentEnergy := (sp.handlePlayerClick st.currentEnergy).currentEnergy } := by
  simp only [List.get?_eq_getElem?] at h
  simp [applyClick, h]

theorem applyClick_preserves_inv (maxE : Int) (st : GameScene) (a : ClickAction)
    (h : EnergyInv maxE st) : EnergyInv maxE (applyClick st a) := by
  obtain ⟨h0, hb, hs, hsum⟩ := h
  cases a with
  | clickButton i =>
    cases hget : st.buttons.get? i with
    | none =>
      rw [applyClick_button_none st i hget]
      exact ⟨h0, hb, hs, hsum⟩
    | some b =>
      have hbmem : b ∈ st.buttons := List.get?_mem hget
      have hbe : 0 ≤ b.energyLevel := hb b hbmem
      have hcons := (Button.click_conserves b st.currentEnergy).1
      have hpool := Button.click_pool_nonneg b st.currentEnergy h0 hbe
      have hdev := Button.click_energy_nonneg b st.currentEnergy hbe
      have hset := sum_map_set Button.energyLevel st.buttons i
        ((b.handlePlayerClick st.currentEnergy).button) b hget
      rw [applyClick_button_some st i b hget]
      refine ⟨hpool, ?_, hs, ?_⟩
      · exact forall_mem_set (fun z => 0 ≤ z.energyLevel) st.buttons i _ hb hdev
      · simp only [devicesEnergy] at hsum ⊢
        simp only [hset]
        omega
  | clickSpeaker i =>
    cases hget : st.speakers.get? i with
    | none =>
      rw [applyClick_speaker_none st i hget]
      exact ⟨h0, hb, hs, hsum⟩
    | some sp =>
      have hsmem : sp ∈ st.speakers := List.get?_mem hget
      have hse : 0 ≤ sp.energyLevel := hs sp hsmem
      have hcons := (Speaker.speaker_click_conserves sp st.currentEnergy).1
      have hpool := Speaker.speaker_click_pool_nonneg sp st.currentEnergy h0 hse
      have hdev := Speaker.speaker_click_energy_nonneg sp st.currentEnergy hse
      have hset := sum_map_set Speaker.energyLevel st.speakers i
        ((sp.handlePlayerClick st.currentEnergy).speaker) sp hget
      rw [applyClick_speaker_some st i sp hget]
      refine ⟨hpool, hb, ?_, ?_⟩
      · exact forall_mem_set (fun z => 0 ≤ z.energyLevel) st.speakers i _ hs hdev
      · simp only [devicesEnergy] at hsum ⊢
        simp only [hset]
        omega

theorem runClicks_preserves_inv (maxE : Int) :
    ∀ (actions : List ClickAction) (st : GameScene),
      EnergyInv maxE st → EnergyInv maxE (runClicks st actions) := by
  intro actions
  induction actions with
  | nil => exact fun st h => h
  | cons a rest ih =>
    intro st h
    exact ih (applyClick st a) (applyClick_preserves_inv maxE st a h)

theorem devicesEnergy_nonneg (st : GameScene)
    (hb : ∀ b ∈ st.buttons, 0 ≤ b.energyLevel)
    (hs : ∀ sp ∈ st.speakers, 0 ≤ sp.energyLevel) :
    0 ≤ devicesEnergy st := by
  unfold devicesEnergy
  have h1 : 0 ≤ (st.buttons.map Button.energyLevel).sum := by
    apply List.sum_nonneg
    intro x hx
    obtain ⟨b, hbmem, rfl⟩ := List.mem_map.mp hx
    exact hb b hbmem
  have h2 : 0 ≤ (st.speakers.map Speaker.energyLevel).sum := by
    apply List.sum_nonneg
    intro x hx
    obtain ⟨sp, hsmem, rfl⟩ := List.mem_map.mp hx
    exact hs sp hsmem
  omega

/-- C4: Starting from the level's initial state produced by
`GameScene.#calculateEnergy` (scene `currentEnergy` equal to the level's
starting energy, `maxEnergy` equal to starting energy plus the energy
initially held by the buttons and speakers, each device within its bounds),
after any sequence of button and speaker clicks the scene's `currentEnergy`
stays at least 0 and at most `maxEnergy`, even though `updateEnergy` itself
performs unguarded addition. -/
theorem scene_energy_bounded_over_clicks
    (startingEnergy : Int) (buttons : List Button) (speakers : List Speaker)
    (actions : List ClickAction)
    (h0 : 0 ≤ startingEnergy)
    (hb : ∀ b ∈ buttons, 0 ≤ b.energyLevel ∧ b.energyLevel ≤ b.maxEnergy)
    (hs : ∀ sp ∈ speakers, 0 ≤ sp.energyLevel ∧ sp.energyLevel ≤ sp.maxEnergy) :
    0 ≤ (runClicks
          { currentEnergy := (calculateEnergy startingEnergy buttons speakers).1,
            buttons := buttons, speakers := speakers } actions).currentEnergy ∧
    (runClicks
          { currentEnergy := (calculateEnergy startingEnergy buttons speakers).1,
            buttons := buttons, speakers := speakers } actions).currentEnergy
      ≤ (calculateEnergy startingEnergy buttons speakers).2 := by
  set maxE := (calculateEnergy startingEnergy buttons speakers).2 with hmaxE
  have hinit : EnergyInv maxE
      { currentEnergy := (calculateEnergy startingEnergy buttons speakers).1,
        buttons := buttons, speakers := speakers } := by
    refine ⟨h0, fun b hbm => (hb b hbm).1, fun sp hsm => (hs sp hsm).1, ?_⟩
    simp only [devicesEnergy, hmaxE, calculateEnergy,
      foldl_add_map_sum Speaker.energyLevel, foldl_add_map_sum Button.energyLevel]
    omega
  have hfin := runClicks_preserves_inv maxE actions _ hinit
  obtain ⟨hf0, hfb, hfs, hfsum⟩ := hfin
  have hdev := devicesEnergy_nonneg _ hfb hfs
  exact ⟨hf0, by omega⟩

/-- Witness for C4: one max-1 button holding 1 energy, one speaker holding 1,
starting pool 2 (so `maxEnergy` is 4), with three clicks. -/
theorem scene_energy_bounded_over_clicks_witness :
    0 ≤ (runClicks
          { currentEnergy := (calculateEnergy 2
              [{ energyLevel := 1, maxEnergy := 1, inTutorial := false, frame := 4 }]
              [Speaker.make 1]).1,
            buttons := [{ energyLevel := 1, maxEnergy := 1, inTutorial := false, frame := 4 }],
            speakers := [Speaker.make 1] }
          [ClickAction.clickButton 0, ClickAction.clickSpeaker 0,
            ClickAction.clickSpeaker 0]).currentEnergy ∧
    (runClicks
          { currentEnergy := (calculateEnergy 2
              [{ energyLevel := 1, maxEnergy := 1, inTutorial := false, frame := 4 }]
              [Speaker.make 1]).1,
            buttons := [{ energyLevel := 1, maxEnergy := 1, inTutorial := false, frame := 4 }],
            speakers := [Speaker.make 1] }
          [ClickAction.clickButton 0, ClickAction.clickSpeaker 0,
            ClickAction.clickSpeaker 0]).currentEnergy
      ≤ (calculateEnergy 2
          [{ energyLevel := 1, maxEnergy := 1, inTutorial := false, frame := 4 }]
          [Speaker.make 1]).2 :=
  scene_energy_bounded_over_clicks 2
    [{ energyLevel := 1, maxEnergy := 1, inTutorial := false, frame := 4 }]
    [Speaker.make 1]
    [ClickAction.clickButton 0, ClickAction.clickSpeaker 0, ClickAction.clickSpeaker 0]
    (by decide)
    (by intro b hbm; simp at hbm; subst hbm; exact ⟨by decide, by decide⟩)
    (by intro sp hsm; simp at hsm; subst hsm; exact ⟨by decide, by decide⟩)

/-! ## Scene flow and saved-level persistence (C5, C7)

The game's scenes (game.ts, boot-scene.ts, title-scene.ts, game-scene.ts,
credits-scene.ts) form a transition system driven by: the boot scene finishing
(`BootScene.create` starts PreloadScene), the preload scene finishing (starts
TitleScene), the title scene's New Game / Continue pointer handlers, a level
completion registered by `GameScene.npcHasLeftScene` with all NPCs exited, and
the credits scene's pointer handler (starts TitleScene).  The state tracks the
active scene, the parsed localStorage value under `'currentLevel'`, the
`GameScene.#currentLevel` field (the scene instance is reused, so the field
persists across restarts), `#finishedLevel`, and the log of all localStorage
writes. -/

inductive ScreenK where
  | boot
  | preload
  | title
  | game
  | credits
deriving Repr, DecidableEq

/-- One `localStorage.setItem` call (key and the integer stored as a string). -/
structure SaveWrite where
  key : String
  value : Int
deriving Repr, DecidableEq

structure FlowState where
  screen : ScreenK
  saved : Option Int
  level : Int
  finishedLevel : Bool
  writes : List SaveWrite
deriving Repr, DecidableEq

/-- `DataUtils.setSavedLevel` (data-utils.ts lines 49-55):
`localStorage.setItem(LOCAL_STORAGE_LEVEL_KEY, level.toString())`.  We record
the new stored value and append the write to the log. -/
def setSavedLevel (st : FlowState) (level : Int) : FlowState :=
  { st with saved := some level,
            writes := st.writes ++ [{ key := LOCAL_STORAGE_LEVEL_KEY, value := level }] }

/-- `GameScene.init` (game-scene.ts lines 85-111): reset `#finishedLevel`;
when no data is passed, pull `DataUtils.getSavedLevel()` (keeping the old
`#currentLevel` when nothing is saved), otherwise take `data.level`; finally
wrap a level of 9 to 1. -/
def gameInit (st : FlowState) (data : Option Int) : FlowState :=
  let st1 : FlowState := { st with finishedLevel := false }
  let st2 : FlowState :=
    match data with
    | none =>
      match st1.saved with
      | some savedLevel => { st1 with level := savedLevel }
      | none => st1
    | some level => { st1 with level := level }
  if st2.level = 9 then { st2 with level := 1 } else st2

inductive FlowEvent where
  | bootDone
  | preloadDone
  | newGameClick
  | continueClick
  | levelComplete
  | creditsClick
deriving Repr, DecidableEq

/-- The scene flow transition relation, one step per player-visible event.
`levelComplete` is `GameScene.npcHasLeftScene` in the case where every NPC has
exited (the other case is a no-op, proved separately for C8):
it sets `#finishedLevel`, saves `#currentLevel + 1`, and starts either
CreditsScene (level 8) or GameScene with level `#currentLevel + 1`.
`newGameClick` is the title scene's New Game handler
(`DataUtils.setSavedLevel(1)` then start GameScene with no data);
`continueClick` is the Continue handler (only present when a saved level
exists and differs from 1, per title-scene.ts lines 68-75). -/
def stepFlow (st : FlowState) (e : FlowEvent) : FlowState :=
  match e with
  | FlowEvent.bootDone =>
    if st.screen = ScreenK.boot then { st with screen := ScreenK.preload } else st
  | FlowEvent.preloadDone =>
    if st.screen = ScreenK.preload then { st with screen := ScreenK.title } else st
  | FlowEvent.newGameClick =>
    if st.screen = ScreenK.title then
      gameInit { setSavedLevel st 1 with screen := ScreenK.game } none
    else st
  | FlowEvent.continueClick =>
    if st.screen = ScreenK.title ∧ st.saved ≠ none ∧ st.saved ≠ some 1 then
      gameInit { st with screen := ScreenK.game } none
    else st
  | FlowEvent.levelComplete =>
    if st.screen = ScreenK.game ∧ st.finishedLevel = false then
      let st1 := setSavedLevel { st with finishedLevel := true } (st.level + 1)
      if st1.level = 8 then { st1 with screen := ScreenK.credits }
      else gameInit { st1 with level := st1.level + 1 } (some (st1.level + 1))
    else st
  | FlowEvent.creditsClick =>
    if st.screen = ScreenK.credits then { st with screen := ScreenK.title } else st

/-- A fresh browser session: boot scene, nothing saved, `#currentLevel`
initialised to 1 by the `GameScene` constructor, no writes yet. -/
def initialFlowState : FlowState :=
  { screen := ScreenK.boot, saved := none, level := 1, finishedLevel := false, writes := [] }

def runFlow (events : List FlowEvent) : FlowState :=
  events.foldl stepFlow initialFlowState

theorem gameInit_saved (st : FlowState) (data : Option Int) :
    (gameInit st data).saved = st.saved := by
  cases data with
  | none =>
    cases h : st.saved with
    | none => simp only [gameInit, h]; split_ifs <;> rfl
    | some v => simp only [gameInit, h]; split_ifs <;> simp [h]
  | some l => simp only [gameInit]; split_ifs <;> rfl

theorem gameInit_writes (st : FlowState) (data : Option Int) :
    (gameInit st data).writes = st.writes := by
  cases data with
  | none =>
    cases h : st.saved with
    | none => simp only [gameInit, h]; split_ifs <;> rfl
    | some v => simp only [gameInit, h]; split_ifs <;> rfl
  | some l => simp only [gameInit]; split_ifs <;> rfl

theorem gameInit_screen (st : FlowState) (data : Option Int) :
    (gameInit st data).screen = st.screen := by
  cases data with
  | none =>
    cases h : st.saved with
    | none => simp only [gameInit, h]; split_ifs <;> rfl
    | some v => simp only [gameInit, h]; split_ifs <;> rfl
  | some l => simp only [gameInit]; split_ifs <;> rfl

theorem gameInit_level_bounds (st : FlowState) (data : Option Int)
    (hlev : 1 ≤ st.level ∧ st.level ≤ 8)
    (hsaved : st.saved = none ∨ ∃ v, st.saved = some v ∧ 1 ≤ v ∧ v ≤ 9)
    (hdata : data = none ∨ ∃ d, data = some d ∧ 1 ≤ d ∧ d ≤ 9) :
    1 ≤ (gameInit st data).level ∧ (gameInit st data).level ≤ 8 := by
  unfold gameInit
  rcases hdata with rfl | ⟨d, rfl, hd1, hd2⟩
  · rcases hsaved with hnone | ⟨v, hv, hv1, hv2⟩
    · simp [hnone]
      split_ifs with h <;> simp <;> omega
    · simp [hv]
      split_ifs with h <;> simp <;> omega
  · simp
    split_ifs with h <;> simp <;> omega

/-- The reachability invariant of the scene flow: the game level stays within
1-8 and the saved value, when present, within 1-9. -/
def FlowInv (st : FlowState) : Prop :=
  1 ≤ st.level ∧ st.level ≤ 8 ∧
  (st.saved = none ∨ ∃ v, st.saved = some v ∧ 1 ≤ v ∧ v ≤ 9)

theorem FlowInv_gameInit (st : FlowState) (data : Option Int)
    (hlev : 1 ≤ st.level ∧ st.level ≤ 8)
    (hsaved : st.saved = none ∨ ∃ v, st.saved = some v ∧ 1 ≤ v ∧ v ≤ 9)
    (hdata : data = none ∨ ∃ d, data = some d ∧ 1 ≤ d ∧ d ≤ 9) :
    FlowInv (gameInit st data) := by
  have hb := gameInit_level_bounds st data hlev hsaved hdata
  refine ⟨hb.1, hb.2, ?_⟩
  rw [gameInit_saved]
  exact hsaved

theorem stepFlow_preserves_inv (st : FlowState) (e : FlowEvent)
    (h : FlowInv st) : FlowInv (stepFlow st e) := by
  obtain ⟨h1, h2, hsaved⟩ := h
  cases e with
  | bootDone =>
    simp only [stepFlow]
    split_ifs <;> exact ⟨h1, h2, hsaved⟩
  | preloadDone =>
    simp only [stepFlow]
    split_ifs <;> exact ⟨h1, h2, hsaved⟩
  | creditsClick =>
    simp only [stepFlow]
    split_ifs <;> exact ⟨h1, h2, hsaved⟩
  | newGameClick =>
    simp only [stepFlow]
    split_ifs with hc
    · exact FlowInv_gameInit _ none ⟨h1, h2⟩
        (Or.inr ⟨1, rfl, by omega, by omega⟩) (Or.inl rfl)
    · exact ⟨h1, h2, hsaved⟩
  | continueClick =>
    simp only [stepFlow]
    split_ifs with hc
    · exact FlowInv_gameInit _ none ⟨h1, h2⟩ hsaved (Or.inl rfl)
    · exact ⟨h1, h2, hsaved⟩
  | levelComplete =>
    simp only [stepFlow]
    split_ifs with hc hl
    · exact ⟨h1, h2, Or.inr ⟨st.level + 1, rfl, by omega, by omega⟩⟩
    · have h8 : ¬ st.level = 8 := hl
      exact FlowInv_gameInit _ (some (st.level + 1))
        ⟨show (1 : Int) ≤ st.level + 1 by omega, show st.level + 1 ≤ (8 : Int) by omega⟩
        (Or.inr ⟨st.level + 1, rfl, by omega, by omega⟩)
        (Or.inr ⟨st.level + 1, rfl, by omega, by omega⟩)
    · exact ⟨h1, h2, hsaved⟩

theorem runFlow_inv (events : List FlowEvent) : FlowInv (runFlow events) := by
  have hgen : ∀ (es : List FlowEvent) (st : FlowState),
      FlowInv st → FlowInv (es.foldl stepFlow st) := by
    intro es
    induction es with
    | nil => exact fun st h => h
    | cons e rest ih =>
      intro st h
      exact ih (stepFlow st e) (stepFlow_preserves_inv st e h)
  exact hgen events initialFlowState ⟨by decide, by decide, Or.inl rfl⟩

/-- Every localStorage write made by the flow uses the single key
`'currentLevel'`. -/
theorem stepFlow_writes_key (st : FlowState) (e : FlowEvent)
    (h : ∀ w ∈ st.writes, w.key = LOCAL_STORAGE_LEVEL_KEY) :
    ∀ w ∈ (stepFlow st e).writes, w.key = LOCAL_STORAGE_LEVEL_KEY := by
  cases e with
  | bootDone =>
    simp only [stepFlow]; split_ifs <;> exact h
  | preloadDone =>
    simp only [stepFlow]; split_ifs <;> exact h
  | creditsClick =>
    simp only [stepFlow]; split_ifs <;> exact h
  | newGameClick =>
    simp only [stepFlow]
    split_ifs with hc
    · simp only [gameInit_writes]
      intro w hw
      simp only [setSavedLevel, List.mem_append, List.mem_singleton] at hw
      rcases hw with hw | rfl
      · exact h w hw
      · rfl
    · exact h
  | continueClick =>
    simp only [stepFlow]
    split_ifs with hc
    · simp only [gameInit_writes]; exact h
    · exact h
  | levelComplete =>
    simp only [stepFlow]
    split_ifs with hc hl
    · intro w hw
      simp only [setSavedLevel, List.mem_append, List.mem_singleton] at hw
      rcases hw with hw | rfl
      · exact h w hw
      · rfl
    · simp only [gameInit_writes]
      intro w hw
      simp only [setSavedLevel, List.mem_append, List.mem_singleton] at hw
      rcases hw with hw | rfl
      · exact h w hw
      · rfl
    · exact h

theorem runFlow_writes_key (events : List FlowEvent) :
    ∀ w ∈ (runFlow events).writes, w.key = LOCAL_STORAGE_LEVEL_KEY := by
  have hgen : ∀ (es : List FlowEvent) (st : FlowState),
      (∀ w ∈ st.writes, w.key = LOCAL_STORAGE_LEVEL_KEY) →
      ∀ w ∈ (es.foldl stepFlow st).writes, w.key = LOCAL_STORAGE_LEVEL_KEY := by
    intro es
    induction es with
    | nil => exact fun st h => h
    | cons e rest ih =>
      intro st h
      exact ih (stepFlow st e) (stepFlow_writes_key st e h)
  exact hgen events initialFlowState (by intro w hw; simp [initialFlowState] at hw)

/-! ## C5: what the saved-level key stores -/

/-- A play-through that completes all eight levels and then starts a New Game
from the title screen (reachable: credits returns to the title on click). -/
def c5Trace : List FlowEvent :=
  [FlowEvent.bootDone, FlowEvent.preloadDone, FlowEvent.newGameClick,
   FlowEvent.levelComplete, FlowEvent.levelComplete, FlowEvent.levelComplete,
   FlowEvent.levelComplete, FlowEvent.levelComplete, FlowEvent.levelComplete,
   FlowEvent.levelComplete, FlowEvent.levelComplete,
   FlowEvent.creditsClick, FlowEvent.newGameClick]

/-- Counterexample to C5 as stated: along the reachable trace `c5Trace` the
values written to localStorage are 1, 2, ..., 9 and then 1 again — the final
New Game click stores 1, which is smaller than the previously reached level
9, so "no write ever stores a value smaller than a previously reached level"
is false on the code. -/
theorem saved_level_monotonicity_counterexample :
    ((runFlow c5Trace).writes.map SaveWrite.value) = [1, 2, 3, 4, 5, 6, 7, 8, 9, 1] ∧
    ((runFlow c5Trace).writes.map SaveWrite.value).get? 8 = some 9 ∧
    ((runFlow c5Trace).writes.map SaveWrite.value).get? 9 = some 1 ∧
    ¬ ((9 : Int) ≤ 1) :=
  ⟨rfl, rfl, rfl, by decide⟩

/-- C5 (amended): The program persists exactly one localStorage integer under
the single key `'currentLevel'`; for every level n whose completion is
registered by `npcHasLeftScene`, the stored value becomes n+1; and the only
write that stores a value smaller than a previously reached level is the
title scene's New Game handler, which unconditionally resets the stored value
to 1 (after which completion writes restart from the reset level). -/
theorem saved_level_single_key_and_completion_writes
    (events : List FlowEvent) (st : FlowState) :
    (∀ w ∈ (runFlow events).writes, w.key = LOCAL_STORAGE_LEVEL_KEY) ∧
    (st.screen = ScreenK.game → st.finishedLevel = false →
      (stepFlow st FlowEvent.levelComplete).writes
        = st.writes ++ [{ key := LOCAL_STORAGE_LEVEL_KEY, value := st.level + 1 }] ∧
      (stepFlow st FlowEvent.levelComplete).saved = some (st.level + 1)) ∧
    (st.screen = ScreenK.title →
      (stepFlow st FlowEvent.newGameClick).writes
        = st.writes ++ [{ key := LOCAL_STORAGE_LEVEL_KEY, value := 1 }] ∧
      (stepFlow st FlowEvent.newGameClick).saved = some 1) := by
  refine ⟨runFlow_writes_key events, ?_, ?_⟩
  · intro hg hf
    simp only [stepFlow]
    split_ifs with hc h8
    · exact ⟨rfl, rfl⟩
    · exact ⟨by simp only [gameInit_writes]; rfl, by simp only [gameInit_saved]; rfl⟩
    · exact absurd ⟨hg, hf⟩ hc
  · intro ht
    simp only [stepFlow]
    rw [if_pos ht]
    exact ⟨by simp only [gameInit_writes]; rfl, by simp only [gameInit_saved]; rfl⟩

/-- Witness for C5 (amended): completing level 4 writes exactly one entry,
`'currentLevel' := 5`. -/
theorem saved_level_single_key_and_completion_writes_witness :
    (stepFlow { screen := ScreenK.game, saved := some 4, level := 4,
                finishedLevel := false, writes := [] } FlowEvent.levelComplete).writes
      = [{ key := LOCAL_STORAGE_LEVEL_KEY, value := 5 }] ∧
    (stepFlow { screen := ScreenK.game, saved := some 4, level := 4,
                finishedLevel := false, writes := [] } FlowEvent.levelComplete).saved
      = some 5 :=
  (saved_level_single_key_and_completion_writes []
    { screen := ScreenK.game, saved := some 4, level := 4,
      finishedLevel := false, writes := [] }).2.1 rfl rfl

/-! ## C7: linear scene flow and level-number bounds -/

/-- The edges of the scene graph Boot → Preload → Title → Game → Credits
(plus the credits scene's return to the title screen). -/
def flowEdge (a b : ScreenK) : Prop :=
  (a = ScreenK.boot ∧ b = ScreenK.preload) ∨
  (a = ScreenK.preload ∧ b = ScreenK.title) ∨
  (a = ScreenK.title ∧ b = ScreenK.game) ∨
  (a = ScreenK.game ∧ b = ScreenK.credits) ∨
  (a = ScreenK.credits ∧ b = ScreenK.title)

/-- C7: The scene flow is linear (Boot → Preload → Title → Game → Credits):
every step either keeps the current scene or moves along an edge of that
chain (the only "backward" edge is Credits → Title); when the final level
(8) is completed, `GameScene` starts the CreditsScene; when a level n < 8 is
completed, `GameScene` restarts itself with level n+1; along every reachable
trace the level number stays in 1-8 (so `GameScene.init` never leaves a
level number outside 1-8 for any reachable saved value); and a saved value
of 9 is wrapped to 1 by `init`. -/
theorem scene_flow_linear_and_level_bounds
    (events : List FlowEvent) (st : FlowState) (e : FlowEvent) :
    (1 ≤ (runFlow events).level ∧ (runFlow events).level ≤ 8) ∧
    ((stepFlow st e).screen = st.screen ∨ flowEdge st.screen (stepFlow st e).screen) ∧
    (st.screen = ScreenK.game → st.finishedLevel = false → st.level = 8 →
      (stepFlow st FlowEvent.levelComplete).screen = ScreenK.credits) ∧
    (st.screen = ScreenK.game → st.finishedLevel = false → st.level < 8 →
      (stepFlow st FlowEvent.levelComplete).screen = ScreenK.game ∧
      (stepFlow st FlowEvent.levelComplete).level = st.level + 1) ∧
    (st.saved = some 9 → (gameInit st none).level = 1) := by
  obtain ⟨hi1, hi2, _⟩ := runFlow_inv events
  refine ⟨⟨hi1, hi2⟩, ?_, ?_, ?_, ?_⟩
  · cases e with
    | bootDone =>
      simp only [stepFlow]
      split_ifs with hc
      · exact Or.inr (Or.inl ⟨hc, rfl⟩)
      · exact Or.inl rfl
    | preloadDone =>
      simp only [stepFlow]
      split_ifs with hc
      · exact Or.inr (Or.inr (Or.inl ⟨hc, rfl⟩))
      · exact Or.inl rfl
    | newGameClick =>
      simp only [stepFlow]
      split_ifs with hc
      · exact Or.inr (Or.inr (Or.inr (Or.inl ⟨hc, by rw [gameInit_screen]⟩)))
      · exact Or.inl rfl
    | continueClick =>
      simp only [stepFlow]
      split_ifs with hc
      · exact Or.inr (Or.inr (Or.inr (Or.inl ⟨hc.1, by rw [gameInit_screen]⟩)))
      · exact Or.inl rfl
    | levelComplete =>
      simp only [stepFlow]
      split_ifs with hc h8
      · exact Or.inr (Or.inr (Or.inr (Or.inr (Or.inl ⟨hc.1, rfl⟩))))
      · exact Or.inl (by rw [gameInit_screen]; exact hc.1.symm ▸ rfl)
      · exact Or.inl rfl
    | creditsClick =>
      simp only [stepFlow]
      split_ifs with hc
      · exact Or.inr (Or.inr (Or.inr (Or.inr (Or.inr ⟨hc, rfl⟩))))
      · exact Or.inl rfl
  · intro hg hf h8
    simp only [stepFlow]
    split_ifs with hc h8'
    · rfl
    · exact absurd h8 h8'
    · exact absurd ⟨hg, hf⟩ hc
  · intro hg hf hlt
    simp only [stepFlow]
    split_ifs with hc h8'
    · have h8 : st.level = 8 := h8'
      omega
    · constructor
      · rw [gameInit_screen]
        exact hg
      · simp only [gameInit]
        split_ifs with h9
        · have h9' : st.level + 1 = 9 := h9
          omega
        · rfl
    · exact absurd ⟨hg, hf⟩ hc
  · intro h9
    simp only [gameInit, h9]
    split_ifs with h
    · rfl
    · exact absurd trivial h

/-- Witness for C7: completing level 8 goes to the credits, completing level
3 restarts the game scene at level 4, and `init` wraps a saved 9 to 1. -/
theorem scene_flow_linear_and_level_bounds_witness :
    (stepFlow { screen := ScreenK.game, saved := some 9, level := 8,
                finishedLevel := false, writes := [] } FlowEvent.levelComplete).screen
      = ScreenK.credits ∧
    (stepFlow { screen := ScreenK.game, saved := some 3, level := 3,
                finishedLevel := false, writes := [] } FlowEvent.levelComplete).level
      = 3 + 1 ∧
    (gameInit { screen := ScreenK.game, saved := some 9, level := 8,
                finishedLevel := false, writes := [] } none).level = 1 :=
  have h1 := scene_flow_linear_and_level_bounds []
    { screen := ScreenK.game, saved := some 9, level := 8,
      finishedLevel := false, writes := [] } FlowEvent.levelComplete
  have h2 := scene_flow_linear_and_level_bounds []
    { screen := ScreenK.game, saved := some 3, level := 3,
      finishedLevel := false, writes := [] } FlowEvent.levelComplete
  ⟨h1.2.2.1 rfl rfl rfl, (h2.2.2.2.1 rfl rfl (by decide)).2, h1.2.2.2.2 rfl⟩

/-! ## C8: a level is only finished when every NPC has exited

`GameScene.npcHasLeftScene` (game-scene.ts lines 314-325) is called by an NPC
that walks off screen (npc.ts `update`, which sets its own `#hasLeftScene`
first).  The scene state it can touch: the per-NPC `hasExitedLevel` flags,
`#finishedLevel`, `#currentLevel`, the saved level, and the `scene.start`
call it may issue. -/

structure GameSceneRun where
  npcExited : List Bool
  finishedLevel : Bool
  currentLevel : Int
  saved : Option Int
  sceneStart : Option (String × Option Int)
deriving Repr, DecidableEq

/-- `GameScene.npcHasLeftScene`:

```
const hasAllNpcsLeft = this.#npcs.every((npc) => npc.hasExitedLevel);
if (hasAllNpcsLeft) {
  this.#finishedLevel = true;
  DataUtils.setSavedLevel(this.#currentLevel + 1);
  if (this.#currentLevel === 8) { this.scene.start(SceneKeys.CreditsScene); return; }
  this.scene.start(SceneKeys.GameScene, { level: (this.#currentLevel += 1) });
}
```
-/
def npcHasLeftScene (st : GameSceneRun) : GameSceneRun :=
  if st.npcExited.all (fun flag => flag) = true then
    let st1 : GameSceneRun :=
      { st with finishedLevel := true, saved := some (st.currentLevel + 1) }
    if st1.currentLevel = 8 then
      { st1 with sceneStart := some ("CreditsScene", none) }
    else
      { st1 with currentLevel := st1.currentLevel + 1,
                 sceneStart := some ("GameScene", some (st1.currentLevel + 1)) }
  else st

/-- C8: A level is never marked finished while some NPC has not exited:
`npcHasLeftScene` marks the level finished, saves progress, and starts the
next scene only when every NPC in the level has `hasExitedLevel` true; if any
NPC has not left, the call changes no scene state at all. -/
theorem npcHasLeftScene_only_when_all_exited (st : GameSceneRun) :
    ((∃ flag ∈ st.npcExited, flag = false) → npcHasLeftScene st = st) ∧
    ((∀ flag ∈ st.npcExited, flag = true) →
      (npcHasLeftScene st).finishedLevel = true ∧
      (npcHasLeftScene st).saved = some (st.currentLevel + 1) ∧
      (st.currentLevel = 8 →
        (npcHasLeftScene st).sceneStart = some ("CreditsScene", none) ∧
        (npcHasLeftScene st).currentLevel = st.currentLevel) ∧
      (st.currentLevel ≠ 8 →
        (npcHasLeftScene st).sceneStart = some ("GameScene", some (st.currentLevel + 1)) ∧
        (npcHasLeftScene st).currentLevel = st.currentLevel + 1)) := by
  constructor
  · intro hex
    obtain ⟨flag, hmem, hfalse⟩ := hex
    have hall : ¬ (st.npcExited.all (fun f => f) = true) := by
      intro hall
      have := List.all_eq_true.mp hall flag hmem
      simp [hfalse] at this
    simp only [npcHasLeftScene]
    rw [if_neg hall]
  · intro hall
    have hallb : st.npcExited.all (fun f => f) = true :=
      List.all_eq_true.mpr (fun f hf => by simpa using hall f hf)
    simp only [npcHasLeftScene]
    rw [if_pos hallb]
    refine ⟨?_, ?_, ?_, ?_⟩
    · split_ifs <;> rfl
    · split_ifs <;> rfl
    · intro h8
      rw [if_pos h8]
      exact ⟨rfl, rfl⟩
    · intro h8
      rw [if_neg h8]
      exact ⟨rfl, rfl⟩

/-- Witness for C8: with one NPC still inside, the call is the identity; once
both NPCs have exited at level 2, the level finishes and level 3 starts. -/
theorem npcHasLeftScene_only_when_all_exited_witness :
    npcHasLeftScene { npcExited := [true, false], finishedLevel := false,
                      currentLevel := 2, saved := some 2, sceneStart := none }
      = { npcExited := [true, false], finishedLevel := false,
          currentLevel := 2, saved := some 2, sceneStart := none } ∧
    (npcHasLeftScene { npcExited := [true, true], finishedLevel := false,
                       currentLevel := 2, saved := some 2,
                       sceneStart := none }).finishedLevel = true :=
  have h1 := npcHasLeftScene_only_when_all_exited
    { npcExited := [true, false], finishedLevel := false,
      currentLevel := 2, saved := some 2, sceneStart := none }
  have h2 := npcHasLeftScene_only_when_all_exited
    { npcExited := [true, true], finishedLevel := false,
      currentLevel := 2, saved := some 2, sceneStart := none }
  ⟨h1.1 ⟨false, by decide, rfl⟩, (h2.2 (by decide)).1⟩

/-! ## C6: schema validation skips invalid objects and keeps valid ones

The creation loops in `GameScene.create` all share the shape of
`#createDoors` (game-scene.ts lines 415-446): iterate over the raw Tiled
objects, `safeParse` each one against a zod schema, `console.warn` and
`continue` on failure, construct the game object on success.  The raw object
type, the parsed type, and the schema's `safeParse` are parameters (zod is a
third-party library).  The functions return the created objects together with
the number of `console.warn` calls. -/

def createDoors {α β : Type} (safeParse : α → Option β) (rawObjects : List α) :
    List β × Nat :=
  rawObjects.foldl
    (fun acc rawObject =>
      match safeParse rawObject with
      | none => (acc.1, acc.2 + 1)
      | some obj => (acc.1 ++ [obj], acc.2))
    ([], 0)

/-- `GameScene.#createButtons` (game-scene.ts lines 453-491) additionally
looks up the button's connected object (`#getButtonConnectedObject`) and
warns-and-skips when it cannot be found, even for a schema-valid object. -/
def createButtons {α β γ : Type} (safeParse : α → Option β)
    (getButtonConnectedObject : β → Option γ) (rawObjects : List α) :
    List (β × γ) × Nat :=
  rawObjects.foldl
    (fun acc rawObject =>
      match safeParse rawObject with
      | none => (acc.1, acc.2 + 1)
      | some obj =>
        match getButtonConnectedObject obj with
        | none => (acc.1, acc.2 + 1)
        | some connectedObject => (acc.1 ++ [(obj, connectedObject)], acc.2))
    ([], 0)

/-- `DataUtils.getAnimations` (data-utils.ts lines 17-25): a failed parse of
the animation JSON yields a `console.warn` and an empty list instead of an
exception. -/
def getAnimations {β : Type} (parsedData : Option (List β)) : List β × Nat :=
  match parsedData with
  | none => ([], 1)
  | some data => (data, 0)

theorem createDoors_aux {α β : Type} (safeParse : α → Option β) :
    ∀ (raws : List α) (acc : List β × Nat),
      raws.foldl
        (fun acc rawObject =>
          match safeParse rawObject with
          | none => (acc.1, acc.2 + 1)
          | some obj => (acc.1 ++ [obj], acc.2)) acc
      = (acc.1 ++ raws.filterMap safeParse,
         acc.2 + raws.countP (fun r => (safeParse r).isNone)) := by
  intro raws
  induction raws with
  | nil => intro acc; simp
  | cons r rs ih =>
    intro acc
    cases hp : safeParse r with
    | none =>
      simp only [List.foldl_cons, hp, ih, List.filterMap_cons, List.countP_cons, hp]
      simp [hp]
      omega
    | some b =>
      simp only [List.foldl_cons, hp, ih, List.filterMap_cons, List.countP_cons, hp]
      simp [hp]

theorem createButtons_aux {α β γ : Type} (safeParse : α → Option β)
    (conn : β → Option γ) :
    ∀ (raws : List α) (acc : List (β × γ) × Nat),
      raws.foldl
        (fun acc rawObject =>
          match safeParse rawObject with
          | none => (acc.1, acc.2 + 1)
          | some obj =>
            match conn obj with
            | none => (acc.1, acc.2 + 1)
            | some connectedObject => (acc.1 ++ [(obj, connectedObject)], acc.2)) acc
      = (acc.1 ++ raws.filterMap
            (fun r => (safeParse r).bind (fun obj => (conn obj).map (fun c => (obj, c)))),
         acc.2 + raws.countP (fun r => ((safeParse r).bind conn).isNone)) := by
  intro raws
  induction raws with
  | nil => intro acc; simp
  | cons r rs ih =>
    intro acc
    cases hp : safeParse r with
    | none =>
      simp only [List.foldl_cons, hp, ih, List.filterMap_cons, List.countP_cons]
      simp [hp]
      omega
    | some b =>
      cases hcn : conn b with
      | none =>
        simp only [List.foldl_cons, hp, hcn, ih, List.filterMap_cons, List.countP_cons]
        simp [hp, hcn]
        omega
      | some c =>
        simp only [List.foldl_cons, hp, hcn, ih, List.filterMap_cons, List.countP_cons]
        simp [hp, hcn]

/-- Counterexample to C6 as stated: the raw button object `0` passes schema
validation (`safeParse` succeeds on it), yet `#createButtons` creates no game
object for it, because its connected object cannot be resolved; it is skipped
with a console warning instead.  So "every remaining valid object in the list
is still created" fails for the buttons list. -/
theorem valid_button_skipped_counterexample :
    ((fun n : Nat => some n) 0).isSome = true ∧
    (createButtons (fun n : Nat => some n) (fun _ : Nat => (none : Option Nat)) [0]).1
      = [] ∧
    (createButtons (fun n : Nat => some n) (fun _ : Nat => (none : Option Nat)) [0]).2
      = 1 :=
  ⟨rfl, rfl, rfl⟩

/-- C6 (amended): For every Tiled object list processed during level
creation, every object that fails schema validation is skipped (no game
object is created for it) with a console warning logged, and every remaining
valid object in the list is still created, in order — except that in
`#createButtons` a schema-valid object whose connected object cannot be
resolved is likewise skipped with a console warning; malformed animation data
yields a warning and an empty result rather than an exception. -/
theorem invalid_objects_skipped_valid_created
    {α β γ δ : Type} (safeParse : α → Option β) (conn : β → Option γ)
    (rawObjects : List α) (animData : Option (List δ)) :
    (createDoors safeParse rawObjects).1 = rawObjects.filterMap safeParse ∧
    (createDoors safeParse rawObjects).2
      = rawObjects.countP (fun r => (safeParse r).isNone) ∧
    (createButtons safeParse conn rawObjects).1
      = rawObjects.filterMap
          (fun r => (safeParse r).bind (fun obj => (conn obj).map (fun c => (obj, c)))) ∧
    (createButtons safeParse conn rawObjects).2
      = rawObjects.countP (fun r => ((safeParse r).bind conn).isNone) ∧
    getAnimations animData = (animData.getD [], if animData.isSome then 0 else 1) := by
  have hd := createDoors_aux safeParse rawObjects ([], 0)
  have hb := createButtons_aux safeParse conn rawObjects ([], 0)
  refine ⟨?_, ?_, ?_, ?_, ?_⟩
  · rw [createDoors, hd]; simp
  · rw [createDoors, hd]; simp
  · rw [createButtons, hb]; simp
  · rw [createButtons, hb]; simp
  · cases animData <;> rfl

/-! ## C10: bridge movement never indexes `stops` out of bounds

`Bridge` (bridge.ts): `#stops` is the list of Y stops parsed by
`GameScene.#getStopsFromObject`, `#currentStopIndex` starts at 0, the
direction starts `UP`.  `#handleBridgeMovement` (bridge.ts lines 244-292)
computes the next stop index from the travel direction, reversing the
direction when the index would pass either end of the list, and targets
`stops[nextStopIndex]` with a tween whose `onComplete` commits
`#currentStopIndex = nextStopIndex`. -/

inductive BridgeDirection where
  | UP
  | DOWN
deriving Repr, DecidableEq

inductive BridgeRunState where
  | ON
  | ON_SAFE
  | OFF_SAFE
  | OFF
deriving Repr, DecidableEq

structure Bridge where
  stops : List Int
  currentStopIndex : Int
  bridgeDirection : BridgeDirection
  powerLevel : Int
  bridgeState : BridgeRunState
deriving Repr, DecidableEq

/-- `Bridge.#handleBridgeMovement`: the power / off-state check, then the
`nextStopIndex` computation with direction reversal at either end.  Returns
the updated bridge and the `nextStopIndex` the created tween targets
(`none` when the bridge is off and no tween is created). -/
def handleBridgeMovement (br : Bridge) : Bridge × Option Int :=
  let br1 : Bridge :=
    if br.powerLevel = 0 then { br with bridgeState := BridgeRunState.OFF } else br
  if br1.bridgeState = BridgeRunState.OFF ∨ br1.bridgeState = BridgeRunState.OFF_SAFE then
    (br1, none)
  else
    match br1.bridgeDirection with
    | BridgeDirection.UP =>
      let nextStopIndex := br1.currentStopIndex + 1
      if nextStopIndex > (br1.stops.length : Int) - 1 then
        ({ br1 with bridgeDirection := BridgeDirection.DOWN },
          some (br1.currentStopIndex - 1))
      else (br1, some nextStopIndex)
    | BridgeDirection.DOWN =>
      let nextStopIndex := br1.currentStopIndex - 1
      if nextStopIndex < 0 then
        ({ br1 with bridgeDirection := BridgeDirection.UP },
          some (br1.currentStopIndex + 1))
      else (br1, some nextStopIndex)

/-- The movement tween's `onComplete` callback: commit the target index and
mark the bridge safe. -/
def commitBridgeStop (br : Bridge) (nextStopIndex : Int) : Bridge :=
  { br with bridgeState := BridgeRunState.ON_SAFE, currentStopIndex := nextStopIndex }

/-- C10: For every Bridge whose stops list has at least two entries and whose
current stop index is in bounds, every invocation of `#handleBridgeMovement`
that creates a movement tween computes a `nextStopIndex` within the bounds of
the `stops` array (so `stops[nextStopIndex]` never reads out of bounds, and
committing it keeps the index invariant), and it reverses the travel
direction exactly when the candidate index would pass either end of the
list. -/
theorem bridge_next_stop_index_in_bounds (br : Bridge)
    (hlen : 2 ≤ br.stops.length)
    (h0 : 0 ≤ br.currentStopIndex)
    (h1 : br.currentStopIndex ≤ (br.stops.length : Int) - 1) :
    ∀ idx, (handleBridgeMovement br).2 = some idx →
      (0 ≤ idx ∧ idx ≤ (br.stops.length : Int) - 1 ∧ idx.toNat < br.stops.length) ∧
      (0 ≤ (commitBridgeStop (handleBridgeMovement br).1 idx).currentStopIndex ∧
        (commitBridgeStop (handleBridgeMovement br).1 idx).currentStopIndex
          ≤ (((commitBridgeStop (handleBridgeMovement br).1 idx).stops.length : Int) - 1)) ∧
      ((handleBridgeMovement br).1.bridgeDirection ≠ br.bridgeDirection ↔
        ((br.bridgeDirection = BridgeDirection.UP ∧
            (br.stops.length : Int) - 1 < br.currentStopIndex + 1) ∨
          (br.bridgeDirection = BridgeDirection.DOWN ∧ br.currentStopIndex - 1 < 0))) := by
  intro idx hidx
  have hlen2 : (2 : Int) ≤ (br.stops.length : Int) := by exact_mod_cast hlen
  by_cases hp : br.powerLevel = 0
  · simp only [handleBridgeMovement] at hidx
    rw [if_pos hp] at hidx
    simp at hidx
  · cases hdir : br.bridgeDirection with
    | UP =>
      by_cases hoff : br.bridgeState = BridgeRunState.OFF ∨ br.bridgeState = BridgeRunState.OFF_SAFE
      · simp only [handleBridgeMovement] at hidx
        rw [if_neg hp, if_pos hoff] at hidx
        simp at hidx
      · by_cases hend : br.currentStopIndex + 1 > (br.stops.length : Int) - 1
        · have hmove : handleBridgeMovement br
              = ({ br with bridgeDirection := BridgeDirection.DOWN },
                  some (br.currentStopIndex - 1)) := by
            simp only [handleBridgeMovement]
            rw [if_neg hp, if_neg hoff]
            simp only [hdir]
            rw [if_pos hend]
          rw [hmove] at hidx
          simp at hidx
          subst hidx
          have hgt : (br.stops.length : Int) - 1 < br.currentStopIndex + 1 := hend
          refine ⟨⟨by omega, by omega, by omega⟩,
            ⟨by rw [hmove]; simp [commitBridgeStop]; omega,
              by rw [hmove]; simp [commitBridgeStop]; omega⟩, ?_⟩
          rw [hmove]
          simp [hdir, hgt]
        · have hmove : handleBridgeMovement br
              = (br, some (br.currentStopIndex + 1)) := by
            simp only [handleBridgeMovement]
            rw [if_neg hp, if_neg hoff]
            simp only [hdir]
            rw [if_neg hend]
          rw [hmove] at hidx
          simp at hidx
          subst hidx
          have hle : ¬ ((br.stops.length : Int) - 1 < br.currentStopIndex + 1) := hend
          refine ⟨⟨by omega, by omega, by omega⟩,
            ⟨by rw [hmove]; simp [commitBridgeStop]; omega,
              by rw [hmove]; simp [commitBridgeStop]; omega⟩, ?_⟩
          rw [hmove]
          simp [hdir, hle]
    | DOWN =>
      by_cases hoff : br.bridgeState = BridgeRunState.OFF ∨ br.bridgeState = BridgeRunState.OFF_SAFE
      · simp only [handleBridgeMovement] at hidx
        rw [if_neg hp, if_pos hoff] at hidx
        simp at hidx
      · by_cases hend : br.currentStopIndex - 1 < 0
        · have hmove : handleBridgeMovement br
              = ({ br with bridgeDirection := BridgeDirection.UP },
                  some (br.currentStopIndex + 1)) := by
            simp only [handleBridgeMovement]
            rw [if_neg hp, if_neg hoff]
            simp only [hdir]
            rw [if_pos hend]
          rw [hmove] at hidx
          simp at hidx
          subst hidx
          refine ⟨⟨by omega, by omega, by omega⟩,
            ⟨by rw [hmove]; simp [commitBridgeStop]; omega,
              by rw [hmove]; simp [commitBridgeStop]; omega⟩, ?_⟩
          rw [hmove]
          simp [hdir, hend]
        · have hmove : handleBridgeMovement br
              = (br, some (br.currentStopIndex - 1)) := by
            simp only [handleBridgeMovement]
            rw [if_neg hp, if_neg hoff]
            simp only [hdir]
            rw [if_neg hend]
          rw [hmove] at hidx
          simp at hidx
          subst hidx
          refine ⟨⟨by omega, by omega, by omega⟩,
            ⟨by rw [hmove]; simp [commitBridgeStop]; omega,
              by rw [hmove]; simp [commitBridgeStop]; omega⟩, ?_⟩
          rw [hmove]
          simp [hdir, hend]

/-- Witness for C10: a powered bridge at the top stop (index 2 of 3, heading
UP) reverses and targets index 1. -/
theorem bridge_next_stop_index_in_bounds_witness :
    (0 ≤ (1 : Int) ∧ (1 : Int) ≤ (([100, 68, 36] : List Int).length : Int) - 1 ∧
      (1 : Int).toNat < ([100, 68, 36] : List Int).length) ∧
    (0 ≤ (commitBridgeStop
        (handleBridgeMovement
          { stops := [100, 68, 36], currentStopIndex := 2,
            bridgeDirection := BridgeDirection.UP, powerLevel := 1,
            bridgeState := BridgeRunState.ON }).1 1).currentStopIndex ∧
      (commitBridgeStop
        (handleBridgeMovement
          { stops := [100, 68, 36], currentStopIndex := 2,
            bridgeDirection := BridgeDirection.UP, powerLevel := 1,
            bridgeState := BridgeRunState.ON }).1 1).currentStopIndex
        ≤ (((commitBridgeStop
            (handleBridgeMovement
              { stops := [100, 68, 36], currentStopIndex := 2,
                bridgeDirection := BridgeDirection.UP, powerLevel := 1,
                bridgeState := BridgeRunState.ON }).1 1).stops.length : Int) - 1)) ∧
    ((handleBridgeMovement
        { stops := [100, 68, 36], currentStopIndex := 2,
          bridgeDirection := BridgeDirection.UP, powerLevel := 1,
          bridgeState := BridgeRunState.ON }).1.bridgeDirection
        ≠ BridgeDirection.UP ↔
      ((BridgeDirection.UP = BridgeDirection.UP ∧
          (([100, 68, 36] : List Int).length : Int) - 1 < 2 + 1) ∨
        (BridgeDirection.UP = BridgeDirection.DOWN ∧ (2 : Int) - 1 < 0))) :=
  bridge_next_stop_index_in_bounds
    { stops := [100, 68, 36], currentStopIndex := 2,
      bridgeDirection := BridgeDirection.UP, powerLevel := 1,
      bridgeState := BridgeRunState.ON }
    (by decide) (by decide) (by decide) 1 rfl

end CircuitRescue
